import Mathlib

/-!
Verification of the Skygram client (`src/App.tsx`).

The client is a React component; its observable behaviour is a sequence of
state updates (`setX` calls), timer delays and one network call.  We embed it
shallowly: the component state is a record, each `setX` call an event, and
each handler a pure function producing the list of events it emits (for the
async `processCloudImage`, parameterised by the outcome of the `fetch` and by
the values drawn from `Math.random()`).  Folding the events over a state
yields the state the component ends in.
-/

namespace Skygram

/-- `interface ProcessingResult` from App.tsx: the wire record. -/
structure ProcessingResult where
  session_id : String
  detected_object : String
  caption : String
  original_image_url : String
  generated_image_url : String
  download_url : String
  deriving DecidableEq, Repr

/-- `interface ProcessingStage` from App.tsx.  The `icon` field is a React
node (pure markup, no data) and is omitted from the embedding. -/
structure ProcessingStage where
  id : String
  name : String
  description : String
  deriving DecidableEq, Repr

/-- `const processingStages` from App.tsx. -/
def processingStages : List ProcessingStage :=
  [ { id := "upload", name := "Uploading Image",
      description := "Sending your cloud photo to server..." },
    { id := "outline", name := "AI Analysis",
      description := "Analyzing your cloud pattern..." },
    { id := "classify", name := "Recognizing Objects",
      description := "Identifying cloud shapes..." },
    { id := "generate", name := "Creating Cloud Art",
      description := "Generating your artwork..." } ]

/-- `const funnyCaptions` from App.tsx. -/
def funnyCaptions : List String :=
  [ "Nature's got jokes! 🌤️",
    "When clouds have better imagination than humans 🤭",
    "Sky doodles by Mother Nature 🎨" ]

/-- The object pool of the fallback in `processCloudImage`:
`['dragon', 'dog', 'castle']`. -/
def objectPool : List String := ["dragon", "dog", "castle"]

/-- The `useState` fields of the `App` component. -/
structure AppState where
  uploadedImage : Option String
  isProcessing : Bool
  currentStage : Nat
  result : Option ProcessingResult
  isDragging : Bool
  error : Option String
  deriving DecidableEq, Repr

/-- The initial values passed to `useState` in `App`. -/
def initialState : AppState :=
  { uploadedImage := none, isProcessing := false, currentStage := 0,
    result := none, isDragging := false, error := none }

/-- One observable action of the component: a `setX` state update, an awaited
`setTimeout` delay, or the `fetch` of `/process-cloud`. -/
inductive Event where
  | setUploadedImage (v : Option String)
  | setIsProcessing (b : Bool)
  | setCurrentStage (i : Nat)
  | setResult (r : Option ProcessingResult)
  | setIsDragging (b : Bool)
  | setError (e : Option String)
  | delayMs (n : Nat)
  | fetchProcessCloud
  deriving DecidableEq, Repr

/-- Effect of one event on the component state.  Delays and the network call
do not change the React state by themselves. -/
def step (s : AppState) : Event → AppState
  | Event.setUploadedImage v => { s with uploadedImage := v }
  | Event.setIsProcessing b => { s with isProcessing := b }
  | Event.setCurrentStage i => { s with currentStage := i }
  | Event.setResult r => { s with result := r }
  | Event.setIsDragging b => { s with isDragging := b }
  | Event.setError e => { s with error := e }
  | Event.delayMs _ => s
  | Event.fetchProcessCloud => s

/-- Run a list of events over a state, first event first. -/
def runEvents (s : AppState) (es : List Event) : AppState :=
  es.foldl step s

/-- Outcome of `await fetch(API_BASE_URL/process-cloud)` followed by
`await response.json()`:
* `ok data` — the response was ok and parsed as a `ProcessingResult`;
* `notOk status` — `!response.ok`, so the code throws
  `Error(Server responded with status)`;
* `thrown msg` — `fetch` (or `json()`) threw; `msg` is `some m` when the
  thrown value was an `Error` with message `m`, `none` otherwise. -/
inductive FetchOutcome where
  | ok (data : ProcessingResult)
  | notOk (status : Nat)
  | thrown (msg : Option String)
  deriving DecidableEq, Repr

/-- Whether the outcome lands in the `catch` block. -/
def FetchOutcome.isFailure : FetchOutcome → Bool
  | FetchOutcome.ok _ => false
  | FetchOutcome.notOk _ => true
  | FetchOutcome.thrown _ => true

/-- The message `setError` receives in the `catch` block:
`err instanceof Error ? err.message : 'Processing failed'`. -/
def catchMessage : FetchOutcome → String
  | FetchOutcome.ok _ => ""
  | FetchOutcome.notOk status => "Server responded with " ++ toString status
  | FetchOutcome.thrown msg => msg.getD "Processing failed"

/-- The fallback `ProcessingResult` built in the `catch` block.  `rObj` and
`rCap` are the two `Math.random()` draws (reals in `[0,1)`, embedded as
rationals); `suffix` is `Math.random().toString(36).substring(2)`.
JavaScript indexing out of range yields `undefined`; we embed it as
`Option.getD _ "undefined"` (the hypotheses `0 ≤ r < 1` make it unreachable). -/
def mockResult (rObj rCap : ℚ) (suffix : String) : ProcessingResult :=
  { session_id := "mock-" ++ suffix,
    detected_object := (objectPool.get? (Int.toNat ⌊rObj * 3⌋)).getD "undefined",
    caption :=
      (funnyCaptions.get?
        (Int.toNat ⌊rCap * (funnyCaptions.length : ℚ)⌋)).getD "undefined",
    original_image_url := "/mock/original.jpg",
    generated_image_url := "/mock/generated.jpg",
    download_url := "/mock/download.jpg" }

/-- The simulated stage loop
`for (let i = 0; i < processingStages.length; i++) { setCurrentStage(i); await 1000ms }`:
`stageLoop n` is the event list emitted by the first `n` iterations. -/
def stageLoop : Nat → List Event
  | 0 => []
  | n + 1 => stageLoop n ++ [Event.setCurrentStage n, Event.delayMs 1000]

/-- Event trace of one call to `processCloudImage`, parameterised by the
fetch outcome and the random draws used by the fallback. -/
def processCloudTrace (outcome : FetchOutcome) (rObj rCap : ℚ)
    (suffix : String) : List Event :=
  [Event.setIsProcessing true, Event.setCurrentStage 0, Event.setError none]
  ++ stageLoop processingStages.length
  ++ [Event.fetchProcessCloud]
  ++ (match outcome with
      | FetchOutcome.ok data => [Event.setResult (some data)]
      | FetchOutcome.notOk status =>
          [Event.setError (some (catchMessage (FetchOutcome.notOk status))),
           Event.setResult (some (mockResult rObj rCap suffix))]
      | FetchOutcome.thrown msg =>
          [Event.setError (some (catchMessage (FetchOutcome.thrown msg))),
           Event.setResult (some (mockResult rObj rCap suffix))])
  ++ [Event.setIsProcessing false]

/-- JavaScript `s.startsWith(p)`, embedded as a prefix test on the
character lists of the two strings (evaluable by the kernel). -/
def jsStartsWith (s p : String) : Bool :=
  p.data.isPrefixOf s.data

/-- A `File` as the handlers see it: the MIME `type` and, for image files,
the data URL the `FileReader` produces. -/
structure JsFile where
  type : String
  dataUrl : String
  deriving DecidableEq, Repr

/-- Event trace of `handleFileUpload`: a non-image file only sets the error
and returns; an image file is read, `uploadedImage` is set to the data URL,
and `processCloudImage` runs. -/
def handleFileUploadTrace (file : JsFile) (outcome : FetchOutcome)
    (rObj rCap : ℚ) (suffix : String) : List Event :=
  if ¬ jsStartsWith file.type "image/" then
    [Event.setError (some "Please upload an image file")]
  else
    Event.setUploadedImage (some file.dataUrl)
      :: processCloudTrace outcome rObj rCap suffix

/-- `handleDrop`: clears the drag highlight, then forwards the first dropped
file (if any) to `handleFileUpload`.  Returns the updated state together with
the file forwarded, `none` when no upload is attempted. -/
def handleDrop (files : List JsFile) (s : AppState) :
    AppState × Option JsFile :=
  let s1 := { s with isDragging := false }
  match files.head? with
  | some f => (s1, some f)
  | none => (s1, none)

/-- `handleFileInput`: `e.target.files` may be null; forwards the first file
(if any) to `handleFileUpload` and touches no state itself. -/
def handleFileInput (files : Option (List JsFile)) (s : AppState) :
    AppState × Option JsFile :=
  match files with
  | some fs =>
      if fs.length > 0 then (s, fs.head?) else (s, none)
  | none => (s, none)

/-- The navigation a click on the download button performs. -/
structure DownloadAction where
  href : String
  filename : String
  deriving DecidableEq, Repr

/-- `handleDownload`: guarded by the JavaScript truthiness of
`result?.download_url` (no result, or an empty `download_url`, is falsy and
the handler does nothing); otherwise it navigates to
`API_BASE_URL + download_url` suggesting `cloud-art-<session_id>.png`. -/
def handleDownload (apiBase : String) (result : Option ProcessingResult) :
    Option DownloadAction :=
  match result with
  | none => none
  | some r =>
      if r.download_url = "" then none
      else some { href := apiBase ++ r.download_url,
                  filename := "cloud-art-" ++ r.session_id ++ ".png" }

end Skygram

namespace Skygram

/-- C1: if the `/process-cloud` call fails (non-ok status or a thrown
error), `processCloudImage` stores the locally fabricated `mockResult` as
the displayed result, so the result state is non-null after the run. -/
theorem C1_failed_fetch_stores_mock_result (s : AppState)
    (outcome : FetchOutcome) (rObj rCap : ℚ) (suffix : String)
    (h : outcome.isFailure = true) :
    (runEvents s (processCloudTrace outcome rObj rCap suffix)).result
      = some (mockResult rObj rCap suffix) ∧
    (runEvents s (processCloudTrace outcome rObj rCap suffix)).result
      ≠ none := by
  cases outcome with
  | ok data => simp [FetchOutcome.isFailure] at h
  | notOk status =>
      refine ⟨rfl, ?_⟩
      intro hc
      simp [runEvents, processCloudTrace, stageLoop, step, processingStages]
        at hc
  | thrown msg =>
      refine ⟨rfl, ?_⟩
      intro hc
      simp [runEvents, processCloudTrace, stageLoop, step, processingStages]
        at hc

theorem C1_witness :
    (FetchOutcome.notOk 500).isFailure = true ∧
    (runEvents initialState
      (processCloudTrace (FetchOutcome.notOk 500) 0 0 "k7f2")).result
        ≠ none :=
  ⟨by decide,
   (C1_failed_fetch_stores_mock_result initialState (FetchOutcome.notOk 500)
      0 0 "k7f2" (by decide)).2⟩

/-- C2 counterexample: a run whose fetch throws ends with BOTH the result
and the error state non-null at once — the fabricated fallback result is
displayed together with the error banner, refuting "never both at once". -/
theorem C2_counterexample :
    (runEvents initialState
      (processCloudTrace (FetchOutcome.thrown (some "Failed to fetch"))
        0 0 "k7f2")).result ≠ none ∧
    (runEvents initialState
      (processCloudTrace (FetchOutcome.thrown (some "Failed to fetch"))
        0 0 "k7f2")).error ≠ none := by
  constructor
  · intro hc
    simp [runEvents, processCloudTrace, stageLoop, step, processingStages]
      at hc
  · intro hc
    simp [runEvents, processCloudTrace, stageLoop, step, processingStages,
      catchMessage] at hc

/-- C2 (amended): every processing run terminates with the Result state
non-null and isProcessing false; the success path additionally ends with no
error, while the failure path ends with the error message also set — Result
and Error coexist there rather than being mutually exclusive. -/
theorem C2_run_terminal_states (s : AppState) (outcome : FetchOutcome)
    (rObj rCap : ℚ) (suffix : String) :
    (runEvents s (processCloudTrace outcome rObj rCap suffix)).result
      ≠ none ∧
    (runEvents s (processCloudTrace outcome rObj rCap suffix)).isProcessing
      = false ∧
    (∀ data, outcome = FetchOutcome.ok data →
      (runEvents s (processCloudTrace outcome rObj rCap suffix)).error
        = none) ∧
    (outcome.isFailure = true →
      (runEvents s (processCloudTrace outcome rObj rCap suffix)).error
        ≠ none) := by
  cases outcome with
  | ok data =>
      refine ⟨?_, rfl, fun d hd => rfl, ?_⟩
      · intro hc
        simp [runEvents, processCloudTrace, stageLoop, step,
          processingStages] at hc
      · intro hf
        simp [FetchOutcome.isFailure] at hf
  | notOk status =>
      refine ⟨?_, rfl, fun d hd => by simp at hd, fun hf => ?_⟩
      · intro hc
        simp [runEvents, processCloudTrace, stageLoop, step,
          processingStages] at hc
      · intro hc
        simp [runEvents, processCloudTrace, stageLoop, step,
          processingStages, catchMessage] at hc
  | thrown msg =>
      refine ⟨?_, rfl, fun d hd => by simp at hd, fun hf => ?_⟩
      · intro hc
        simp [runEvents, processCloudTrace, stageLoop, step,
          processingStages] at hc
      · intro hc
        simp [runEvents, processCloudTrace, stageLoop, step,
          processingStages, catchMessage] at hc

theorem C2_witness :
    (runEvents initialState
      (processCloudTrace
        (FetchOutcome.ok
          { session_id := "s1", detected_object := "dragon",
            caption := "Sky doodles by Mother Nature 🎨",
            original_image_url := "/images/original/s1",
            generated_image_url := "/images/generated/s1.png",
            download_url := "/download/s1.png" }) 0 0 "k7f2")).result
      ≠ none :=
  (C2_run_terminal_states initialState
    (FetchOutcome.ok
      { session_id := "s1", detected_object := "dragon",
        caption := "Sky doodles by Mother Nature 🎨",
        original_image_url := "/images/original/s1",
        generated_image_url := "/images/generated/s1.png",
        download_url := "/download/s1.png" }) 0 0 "k7f2").1

end Skygram

namespace Skygram

/-- C3: for every upload, the trace of `processCloudImage` begins with the
four fixed stages in order (stage 0 up to stage 3), each advanced only by a
one-second (1000 ms) simulated delay, and the `/process-cloud` fetch is
issued only after all four stages have elapsed — it occurs exactly once,
right after the last delay, and nowhere later. -/
theorem C3_stages_in_order_then_fetch (outcome : FetchOutcome)
    (rObj rCap : ℚ) (suffix : String) :
    ∃ rest, processCloudTrace outcome rObj rCap suffix =
      [Event.setIsProcessing true, Event.setCurrentStage 0,
       Event.setError none,
       Event.setCurrentStage 0, Event.delayMs 1000,
       Event.setCurrentStage 1, Event.delayMs 1000,
       Event.setCurrentStage 2, Event.delayMs 1000,
       Event.setCurrentStage 3, Event.delayMs 1000,
       Event.fetchProcessCloud] ++ rest ∧
      Event.fetchProcessCloud ∉ rest := by
  cases outcome with
  | ok data => exact ⟨_, rfl, by simp⟩
  | notOk status => exact ⟨_, rfl, by simp⟩
  | thrown msg => exact ⟨_, rfl, by simp⟩

theorem C3_witness :
    ∃ rest, processCloudTrace (FetchOutcome.thrown none) 0 0 "k7f2" =
      [Event.setIsProcessing true, Event.setCurrentStage 0,
       Event.setError none,
       Event.setCurrentStage 0, Event.delayMs 1000,
       Event.setCurrentStage 1, Event.delayMs 1000,
       Event.setCurrentStage 2, Event.delayMs 1000,
       Event.setCurrentStage 3, Event.delayMs 1000,
       Event.fetchProcessCloud] ++ rest ∧
      Event.fetchProcessCloud ∉ rest :=
  C3_stages_in_order_then_fetch (FetchOutcome.thrown none) 0 0 "k7f2"

/-- C4: a file whose MIME type does not start with `image/` makes
`handleFileUpload` set the client error message and return: its whole trace
is that one `setError`, so no `/process-cloud` fetch is issued, no
processing starts and no result (hence no session) is ever stored. -/
theorem C4_nonimage_rejected (file : JsFile) (outcome : FetchOutcome)
    (rObj rCap : ℚ) (suffix : String)
    (h : ¬ jsStartsWith file.type "image/") :
    handleFileUploadTrace file outcome rObj rCap suffix
      = [Event.setError (some "Please upload an image file")] ∧
    Event.fetchProcessCloud
      ∉ handleFileUploadTrace file outcome rObj rCap suffix ∧
    (∀ b, Event.setIsProcessing b
      ∉ handleFileUploadTrace file outcome rObj rCap suffix) ∧
    (∀ r, Event.setResult r
      ∉ handleFileUploadTrace file outcome rObj rCap suffix) := by
  refine ⟨?_, ?_, ?_, ?_⟩ <;>
    simp [handleFileUploadTrace, h]

theorem C4_witness :
    ¬ jsStartsWith (JsFile.mk "text/plain" "d").type "image/" ∧
    handleFileUploadTrace (JsFile.mk "text/plain" "d")
        (FetchOutcome.notOk 500) 0 0 "k7f2"
      = [Event.setError (some "Please upload an image file")] :=
  ⟨by decide,
   (C4_nonimage_rejected (JsFile.mk "text/plain" "d")
      (FetchOutcome.notOk 500) 0 0 "k7f2" (by decide)).1⟩

end Skygram

namespace Skygram

/-- C5: when the client fallback runs (recognition unreachable through the
observable `/process-cloud` failure), the fabricated record's
`detected_object` is an element of the fixed pool
`["dragon", "dog", "castle"]` and in particular a non-empty string, for any
`Math.random()` draw in `[0,1)`. -/
theorem C5_fallback_detected_object_in_pool (rObj rCap : ℚ) (suffix : String)
    (h0 : 0 ≤ rObj) (h1 : rObj < 1) :
    (mockResult rObj rCap suffix).detected_object ∈ objectPool ∧
    (mockResult rObj rCap suffix).detected_object ≠ "" := by
  have hnonneg : (0:ℚ) ≤ rObj * 3 := by linarith
  have hfl : ⌊rObj * 3⌋ < 3 := by
    rw [Int.floor_lt]
    push_cast
    linarith
  have hn : Int.toNat ⌊rObj * 3⌋ < 3 := by omega
  simp only [mockResult]
  generalize hg : Int.toNat ⌊rObj * 3⌋ = n at hn
  interval_cases n <;> simp [objectPool]

theorem C5_witness :
    ((0:ℚ) ≤ 0 ∧ (0:ℚ) < 1) ∧
    (mockResult 0 0 "w5" ).detected_object ∈ objectPool ∧
    (mockResult 0 0 "w5" ).detected_object ≠ "" :=
  ⟨⟨le_refl 0, by norm_num⟩,
   C5_fallback_detected_object_in_pool 0 0 "w5" (le_refl 0) (by norm_num)⟩

/-- C6: for every run of the client-side fallback, the fabricated record's
`caption` is an element of the fixed non-empty pool `funnyCaptions`: the
pseudo-random index `Math.floor(Math.random() * funnyCaptions.length)` is
always in range for any draw in `[0,1)`. -/
theorem C6_fallback_caption_in_pool (rObj rCap : ℚ) (suffix : String)
    (h0 : 0 ≤ rCap) (h1 : rCap < 1) :
    (mockResult rObj rCap suffix).caption ∈ funnyCaptions := by
  have hlen : (funnyCaptions.length : ℚ) = 3 := by norm_num [funnyCaptions]
  have hnonneg : (0:ℚ) ≤ rCap * 3 := by linarith
  have hfl : ⌊rCap * (funnyCaptions.length : ℚ)⌋ < 3 := by
    rw [hlen, Int.floor_lt]
    push_cast
    linarith
  have hn : Int.toNat ⌊rCap * (funnyCaptions.length : ℚ)⌋ < 3 := by omega
  simp only [mockResult]
  generalize hg : Int.toNat ⌊rCap * (funnyCaptions.length : ℚ)⌋ = n at hn
  interval_cases n <;> simp [funnyCaptions]

theorem C6_witness :
    ((0:ℚ) ≤ 1/2 ∧ (1/2:ℚ) < 1) ∧
    (mockResult 0 (1/2) "w6" ).caption ∈ funnyCaptions :=
  ⟨⟨by norm_num, by norm_num⟩,
   C6_fallback_caption_in_pool 0 (1/2) "w6" (by norm_num) (by norm_num)⟩

/-- The six fields of a `ProcessingResult`, as a tuple of strings. -/
def resultToTuple (r : ProcessingResult) :
    String × String × String × String × String × String :=
  (r.session_id, r.detected_object, r.caption, r.original_image_url,
   r.generated_image_url, r.download_url)

/-- Inverse of `resultToTuple`. -/
def resultOfTuple :
    String × String × String × String × String × String → ProcessingResult
  | (a, b, c, d, e, f) =>
      { session_id := a, detected_object := b, caption := c,
        original_image_url := d, generated_image_url := e,
        download_url := f }

/-- C7: every `ProcessingResult` the client stores (server-received or
fabricated) consists of exactly the six string fields `session_id`,
`detected_object`, `caption`, `original_image_url`, `generated_image_url`
and `download_url`: the record type is in bijection with six-tuples of
strings, witnessed by a two-sided inverse. -/
theorem C7_result_is_exactly_six_strings :
    (∀ r : ProcessingResult, resultOfTuple (resultToTuple r) = r) ∧
    (∀ t : String × String × String × String × String × String,
      resultToTuple (resultOfTuple t) = t) :=
  ⟨fun _ => rfl, fun _ => rfl⟩

end Skygram

namespace Skygram

/-- C8: the download handler fires only when a result with a non-empty
`download_url` is present (JS truthiness of `result?.download_url`); when it
fires it navigates to `API_BASE_URL ++ download_url` with suggested filename
`cloud-art-<session_id>.png`; with no result, or an empty `download_url`,
it is a no-op. -/
theorem C8_download_action (apiBase : String) (r : ProcessingResult) :
    handleDownload apiBase none = none ∧
    (r.download_url = "" → handleDownload apiBase (some r) = none) ∧
    (r.download_url ≠ "" → handleDownload apiBase (some r) =
      some { href := apiBase ++ r.download_url,
             filename := "cloud-art-" ++ r.session_id ++ ".png" }) := by
  refine ⟨rfl, fun h => ?_, fun h => ?_⟩
  · simp [handleDownload, h]
  · simp [handleDownload, h]

theorem C8_witness :
    (ProcessingResult.mk "s1" "dragon" "c" "/o" "/g" "/download/s1.png"
      ).download_url ≠ "" ∧
    handleDownload "http://localhost:8000"
        (some (ProcessingResult.mk "s1" "dragon" "c" "/o" "/g"
          "/download/s1.png"))
      = some { href := "http://localhost:8000/download/s1.png",
               filename := "cloud-art-s1.png" } :=
  ⟨by decide,
   (C8_download_action "http://localhost:8000"
      (ProcessingResult.mk "s1" "dragon" "c" "/o" "/g"
        "/download/s1.png")).2.2 (by decide)⟩

/-- C9: `processCloudImage` clears any previously displayed error as soon as
it starts (the state after its first three synchronous updates has no
error), and its `finally` block always sets `isProcessing` back to `false`,
on the success path and on every failure path alike, so the client never
remains stuck in the Processing state after the call completes. -/
theorem C9_processing_always_terminates (s : AppState)
    (outcome : FetchOutcome) (rObj rCap : ℚ) (suffix : String) :
    (runEvents s (processCloudTrace outcome rObj rCap suffix)).isProcessing
      = false ∧
    (runEvents s ((processCloudTrace outcome rObj rCap suffix).take 3)).error
      = none := by
  cases outcome with
  | ok data => exact ⟨rfl, rfl⟩
  | notOk status => exact ⟨rfl, rfl⟩
  | thrown msg => exact ⟨rfl, rfl⟩

/-- C10 counterexample: dropping an empty file list is NOT a state no-op:
`handleDrop` unconditionally clears `isDragging`, so on a state with the
drag highlight active (as it is during any drop, since `onDragOver` sets
it) the state changes even though no upload is attempted. -/
theorem C10_counterexample :
    (handleDrop [] { initialState with isDragging := true }).2 = none ∧
    (handleDrop [] { initialState with isDragging := true }).1
      ≠ { initialState with isDragging := true } := by
  constructor
  · rfl
  · decide

/-- C10 (amended): the drop and file-input handlers forward exactly the
first file of the list to `handleFileUpload` and ignore the rest; on an
empty (or null) list no upload is attempted, `handleFileInput` leaves the
state unchanged, and `handleDrop` changes the state only by clearing the
`isDragging` flag. -/
theorem C10_first_file_only (files : List JsFile)
    (ofiles : Option (List JsFile)) (s : AppState) :
    (handleDrop files s).2 = files.head? ∧
    (handleDrop files s).1 = { s with isDragging := false } ∧
    (handleFileInput ofiles s).2 = (ofiles.getD []).head? ∧
    (handleFileInput ofiles s).1 = s := by
  refine ⟨?_, ?_, ?_, ?_⟩
  · cases files <;> rfl
  · cases files <;> rfl
  · cases ofiles with
    | none => rfl
    | some fs => cases fs <;> simp [handleFileInput]
  · cases ofiles with
    | none => rfl
    | some fs => cases fs <;> simp [handleFileInput]

end Skygram
